import Mathlib

/-!
Shallow embedding of `fizz/client/AsyncFizzClient-inl.h` (the fizz TLS 1.3
client session orchestrator) and proofs about its early-data handling,
error fan-out and handshake-completion delivery.

Modelling conventions:
* `folly::IOBuf` chains are byte lists (`List Nat`); `computeChainDataLength`
  is list length.
* Raw callback pointers (`WriteCallback*`, `ReplaySafetyCallback*`) are opaque
  `Nat` handles; a null pointer is `Option.none`.
* Calls into external collaborators (the Engine `fizzClient_`, the transport,
  the PSK cache, timers, the application's callbacks) are recorded as an
  ordered `Effect` trace; the orchestrator's own fields live in `ClientState`.
* `remainingEarlyData` (a `uint32_t` in the source) is modelled as `Int` so
  that absence of underflow is a provable property rather than a typing
  artifact; the source only ever subtracts when `size ≤ remaining`.
-/

namespace FizzClient

/-- Error categories of `folly::AsyncSocketException` constructed or handled
in this file.  `INVALID_USAGE` never occurs in the source; it is included only
so that the specification's phrase "fails with an InvalidUsage error" can be
stated and compared with what the code actually does. -/
inductive AseType
  | NOT_OPEN
  | BAD_ARGS
  | INVALID_STATE
  | SSL_ERROR
  | END_OF_FILE
  | EARLY_DATA_REJECTED
  | TIMED_OUT
  | INVALID_USAGE
  deriving DecidableEq, Repr

/-- `EarlyDataRejectionPolicy` from the client settings. -/
inductive EarlyDataRejectionPolicy
  | FatalConnectionError
  | AutomaticResend
  deriving DecidableEq, Repr

/-- One application write request (`AppWrite` / `EarlyAppWrite`): payload,
optional completion-callback handle, write flags. -/
structure AppWrite where
  callback : Option Nat
  data : List Nat
  flags : Nat
  deriving DecidableEq, Repr

/-- `AsyncFizzClientT::EarlyDataState`: the 0-RTT budget, the queue of writes
deferred past the handshake, and the resend buffer. -/
structure EarlyDataState where
  remainingEarlyData : Int
  pendingAppWrites : List AppWrite
  resendBuffer : List Nat
  deriving DecidableEq, Repr

/-- The two shapes of the handshake-completion observer stored in `callback_`:
a `HandshakeCallback*` or a `folly::AsyncSocket::ConnectCallback*`. -/
inductive FizzCallback
  | handshake (id : Nat)
  | connectCb (id : Nat)
  deriving DecidableEq, Repr

/-- Externally observable side effects, in the order the code performs them. -/
inductive Effect
  | writeErr (cb : Nat) (ex : AseType)
  | writeSuccess (cb : Nat)
  | engineAppWrite (w : AppWrite)
  | engineEarlyAppWrite (w : AppWrite)
  | engineAppClose
  | engineMoveToErrorState (ex : AseType)
  | engineWaitForData
  | engineConnect
  | socketConnect
  | startTransportReads
  | startHandshakeTimeout
  | cancelHandshakeTimeout
  | hsError (cb : FizzCallback) (ex : AseType)
  | hsSuccess (cb : FizzCallback)
  | onReplaySafe (cb : Nat)
  | getPsk (id : Nat)
  | putPsk (id : Nat)
  | removePsk (id : Nat)
  | deliverError (ex : AseType) (closeTransport : Bool)
  | deliverAppDataEff (data : List Nat)
  | transportWriteChain (cb : Option Nat) (data : List Nat) (flags : Nat)
  | transportClose
  | transportCloseWithReset
  | transportCloseNow
  deriving DecidableEq, Repr

/-- The orchestrator's own state: the stored completion observer `callback_`,
the transport's usability bits, the Engine's error bit
(`fizzClient_.inErrorState()`), `earlyDataState_`, `replaySafetyCallback_`,
`pskIdentity_`, the configured `earlyDataRejectionPolicy_`, and the value the
Engine's `earlyParametersMatch(getState())` oracle would report. -/
structure ClientState where
  callback : Option FizzCallback
  transportGood : Bool
  transportError : Bool
  fizzInErrorState : Bool
  earlyDataState : Option EarlyDataState
  replaySafetyCallback : Option Nat
  pskIdentity : Option Nat
  earlyDataRejectionPolicy : EarlyDataRejectionPolicy
  earlyParametersMatch : Bool
  deriving DecidableEq, Repr

/-- `AsyncFizzClientT::error()`: transport error or Engine error state. -/
def error (s : ClientState) : Bool :=
  s.transportError || s.fizzInErrorState

/-- `AsyncFizzClientT::isReplaySafe()`: `!earlyDataState_.hasValue()`. -/
def isReplaySafe (s : ClientState) : Bool :=
  !s.earlyDataState.isSome

/-- `AsyncFizzClientT::writeAppData`.  In an error state the write fails fast
with `INVALID_STATE`.  With `earlyDataState_` present, the write is queued
(forcing the budget to 0) when the queue is non-empty or the payload exceeds
the budget; otherwise it is sent as an early write, the payload having been
cloned into the resend buffer when the policy is `AutomaticResend`.  Without
early-data state it is an ordinary `appWrite`. -/
def writeAppData (s : ClientState) (callback : Option Nat) (buf : List Nat)
    (flags : Nat) : ClientState × List Effect :=
  if error s = true then
    (s, match callback with
        | some cb => [Effect.writeErr cb AseType.INVALID_STATE]
        | none => [])
  else
    match s.earlyDataState with
    | some eds =>
      if ¬ eds.pendingAppWrites = [] ∨ eds.remainingEarlyData < Int.ofNat buf.length then
        ({ s with earlyDataState := some { eds with
              remainingEarlyData := 0,
              pendingAppWrites := eds.pendingAppWrites ++ [⟨callback, buf, flags⟩] } },
         [])
      else
        let eds' :=
          if s.earlyDataRejectionPolicy = EarlyDataRejectionPolicy.AutomaticResend then
            { eds with resendBuffer := eds.resendBuffer ++ buf }
          else eds
        ({ s with earlyDataState := some { eds' with
              remainingEarlyData := eds'.remainingEarlyData - Int.ofNat buf.length } },
         [Effect.engineEarlyAppWrite ⟨callback, buf, flags⟩])
    | none =>
      (s, [Effect.engineAppWrite ⟨callback, buf, flags⟩])

/-- `AsyncFizzClientT::deliverHandshakeError`: if `callback_` is set, cancel
the handshake timer, clear `callback_` first, then invoke the stored
observer's error method. -/
def deliverHandshakeError (s : ClientState) (ex : AseType) :
    ClientState × List Effect :=
  match s.callback with
  | some cb =>
    ({ s with callback := none },
     [Effect.cancelHandshakeTimeout, Effect.hsError cb ex])
  | none => (s, [])

/-- The `while (earlyDataState_ && !pendingAppWrites.empty())` loop body of
`deliverAllErrors`: each queued write with a callback gets `writeErr`. -/
def failPendingWrites (pendings : List AppWrite) (ex : AseType) : List Effect :=
  pendings.filterMap (fun w => w.callback.map (fun cb => Effect.writeErr cb ex))

/-- `AsyncFizzClientT::deliverAllErrors`: resolve the handshake observer with
failure, clear (without notifying) the replay-safety callback, fail every
queued early write in FIFO order, move the Engine to its error state, then
deliver the error (optionally closing the transport). -/
def deliverAllErrors (s : ClientState) (ex : AseType) (closeTransport : Bool) :
    ClientState × List Effect :=
  let r1 := deliverHandshakeError s ex
  let s2 := { r1.1 with replaySafetyCallback := none }
  let r3 :=
    match s2.earlyDataState with
    | some eds =>
      (({ s2 with earlyDataState := some { eds with pendingAppWrites := [] } } : ClientState),
       failPendingWrites eds.pendingAppWrites ex)
    | none => (s2, ([] : List Effect))
  ({ r3.1 with fizzInErrorState := true },
   r1.2 ++ r3.2 ++ [Effect.engineMoveToErrorState ex,
                    Effect.deliverError ex closeTransport])

/-- `AsyncFizzClientT::close`: with a good transport only `appClose` is sent
to the Engine; otherwise all errors are delivered with `END_OF_FILE` and the
transport is closed. -/
def close (s : ClientState) : ClientState × List Effect :=
  if s.transportGood then
    (s, [Effect.engineAppClose])
  else
    let r := deliverAllErrors s AseType.END_OF_FILE false
    ({ r.1 with transportGood := false }, r.2 ++ [Effect.transportClose])

/-- `AsyncFizzClientT::closeWithReset`. -/
def closeWithReset (s : ClientState) : ClientState × List Effect :=
  let e0 : List Effect := if s.transportGood then [Effect.engineAppClose] else []
  let r := deliverAllErrors s AseType.END_OF_FILE false
  ({ r.1 with transportGood := false },
   e0 ++ r.2 ++ [Effect.transportCloseWithReset])

/-- `AsyncFizzClientT::closeNow`. -/
def closeNow (s : ClientState) : ClientState × List Effect :=
  let e0 : List Effect := if s.transportGood then [Effect.engineAppClose] else []
  let r := deliverAllErrors s AseType.END_OF_FILE false
  ({ r.1 with transportGood := false },
   e0 ++ r.2 ++ [Effect.transportCloseNow])

/-- `AsyncFizzClientT::handleEarlyReject`: `FatalConnectionError` yields an
`EARLY_DATA_REJECTED` exception; `AutomaticResend` with matching early
parameters moves the (non-empty) resend buffer into a single callback-less
ordinary `appWrite`; non-matching parameters yield `EARLY_DATA_REJECTED`. -/
def handleEarlyReject (s : ClientState) :
    Option AseType × ClientState × List Effect :=
  match s.earlyDataRejectionPolicy with
  | EarlyDataRejectionPolicy.FatalConnectionError =>
    (some AseType.EARLY_DATA_REJECTED, s, [])
  | EarlyDataRejectionPolicy.AutomaticResend =>
    if s.earlyParametersMatch then
      match s.earlyDataState with
      | some eds =>
        if eds.resendBuffer = [] then (none, s, [])
        else
          (none,
           { s with earlyDataState := some { eds with resendBuffer := [] } },
           [Effect.engineAppWrite ⟨none, eds.resendBuffer, 0⟩])
      | none => (none, s, [])
    else
      (some AseType.EARLY_DATA_REJECTED, s, [])

/-- The success effect of the `callback_` resolution block. -/
def sinkSuccessEffects : Option FizzCallback → List Effect
  | some cb => [Effect.hsSuccess cb]
  | none => []

/-- The notification effect of the `replaySafetyCallback_` block. -/
def replayFireEffects : Option Nat → List Effect
  | some c => [Effect.onReplaySafe c]
  | none => []

/-- The ordinary writes handed to the Engine by the pending-write drain loop
of `ReportHandshakeSuccess`. -/
def drainEffects : Option EarlyDataState → List Effect
  | some eds => eds.pendingAppWrites.map Effect.engineAppWrite
  | none => []

/-- The PSK-cache eviction of the fatal early-rejection path. -/
def removePskEffects : Option Nat → List Effect
  | some id => [Effect.removePsk id]
  | none => []

/-- The `callback_` resolution block shared by the two success reports:
clear `callback_` first, then invoke the stored observer's success method. -/
def resolveSinkSuccess (s : ClientState) : ClientState × List Effect :=
  match s.callback with
  | some cb => ({ s with callback := none }, [Effect.hsSuccess cb])
  | none => (s, [])

/-- The `replaySafetyCallback_` block of `ReportHandshakeSuccess`: clear the
stored observer first, then notify it. -/
def fireReplaySafe (s : ClientState) : ClientState × List Effect :=
  match s.replaySafetyCallback with
  | some cb => ({ s with replaySafetyCallback := none }, [Effect.onReplaySafe cb])
  | none => (s, [])

/-- Tail of `operator()(ReportHandshakeSuccess&)`: resolve the sink with
success, then fire the replay-safety observer. -/
def sinkAndReplay (s : ClientState) : ClientState × List Effect :=
  let r1 := resolveSinkSuccess s
  let r2 := fireReplaySafe r1.1
  (r2.1, r1.2 ++ r2.2)

/-- The drain loop of `operator()(ReportHandshakeSuccess&)`: hand each queued
write to the Engine as an ordinary write in FIFO order, clear
`earlyDataState_`, then run the success tail. -/
def drainPendingAndFinish (s : ClientState) (pre : List Effect) :
    ClientState × List Effect :=
  match s.earlyDataState with
  | some eds =>
    let r := sinkAndReplay { s with earlyDataState := none }
    (r.1, pre ++ eds.pendingAppWrites.map Effect.engineAppWrite ++ r.2)
  | none =>
    let r := sinkAndReplay s
    (r.1, pre ++ r.2)

/-- `ActionMoveVisitor::operator()(ReportHandshakeSuccess&)`: cancel the
handshake timer; with early-data state present and early data rejected, run
`handleEarlyReject` — a produced exception triggers PSK removal,
`deliverAllErrors` and `closeNow`; otherwise drain the queued writes, clear
the early-data state, resolve the sink and fire the replay observer. -/
def reportHandshakeSuccess (s : ClientState) (earlyDataAccepted : Bool) :
    ClientState × List Effect :=
  let r :=
    match s.earlyDataState with
    | none => sinkAndReplay s
    | some _ =>
      if earlyDataAccepted then
        drainPendingAndFinish s []
      else
        match handleEarlyReject s with
        | (some ex, sr, er) =>
          let re := deliverAllErrors sr ex false
          ({ re.1 with transportGood := false },
           er ++ removePskEffects sr.pskIdentity ++ re.2 ++
             [Effect.transportCloseNow])
        | (none, sr, er) => drainPendingAndFinish sr er
  (r.1, Effect.cancelHandshakeTimeout :: r.2)

/-- `ActionMoveVisitor::operator()(ReportEarlyHandshakeSuccess&)`: create a
fresh `EarlyDataState` with the granted budget, then resolve the sink with
(early) success. -/
def reportEarlyHandshakeSuccess (s : ClientState) (maxEarlyDataSize : Nat) :
    ClientState × List Effect :=
  resolveSinkSuccess
    { s with earlyDataState := some ⟨Int.ofNat maxEarlyDataSize, [], []⟩ }

/-- `ActionMoveVisitor::operator()(ReportError&)`: deliver the handshake
error with the Engine's error, then deliver all errors with an `SSL_ERROR`
wrapper (the declaration's default `closeTransport = true`). -/
def reportError (s : ClientState) : ClientState × List Effect :=
  let r1 := deliverHandshakeError s AseType.SSL_ERROR
  let r2 := deliverAllErrors r1.1 AseType.SSL_ERROR true
  (r2.1, r1.2 ++ r2.2)

/-- `ActionMoveVisitor::operator()(ReportEarlyWriteFailed&)`: synthesize a
success completion for the failed early write. -/
def reportEarlyWriteFailed (s : ClientState) (w : AppWrite) :
    ClientState × List Effect :=
  (s, match w.callback with
      | some c => [Effect.writeSuccess c]
      | none => [])

/-- `ActionMoveVisitor::operator()(WaitForData&)`: ask the Engine to wait,
and re-install the read callback while a connect is outstanding. -/
def waitForData (s : ClientState) : ClientState × List Effect :=
  (s, Effect.engineWaitForData ::
      (if s.callback.isSome then [Effect.startTransportReads] else []))

/-- `ActionMoveVisitor::operator()(NewCachedPsk&)`: store the fresh PSK when
a PSK identity was supplied at connect time. -/
def newCachedPsk (s : ClientState) : ClientState × List Effect :=
  (s, match s.pskIdentity with
      | some id => [Effect.putPsk id]
      | none => [])

/-- Result of a `connect` call: `fatalAssert` models a failed glog `CHECK`
(the process aborts); `ok` carries the post-state and the effect trace. -/
inductive ConnectResult
  | fatalAssert
  | ok (s : ClientState) (effects : List Effect)
  deriving DecidableEq, Repr

/-- The high-level `AsyncFizzClientT::connect` shape (observer, verifier,
SNI, PSK identity, timeout): `CHECK(callback)` and `CHECK(!callback_)`, a
`NOT_OPEN` error on an unusable transport, otherwise timer start, read
installation, PSK-cache lookup and the Engine connect. -/
def connect (s : ClientState) (callback : Option FizzCallback)
    (pskIdentity : Option Nat) (timeoutZero : Bool) : ConnectResult :=
  if callback.isNone then ConnectResult.fatalAssert
  else if s.callback.isSome then ConnectResult.fatalAssert
  else
    let s1 := { s with callback := callback }
    if s1.transportGood = false then
      let r := deliverAllErrors s1 AseType.NOT_OPEN false
      ConnectResult.ok r.1 r.2
    else
      let s2 := { s1 with pskIdentity := pskIdentity }
      ConnectResult.ok s2
        ((if timeoutZero then [] else [Effect.startHandshakeTimeout]) ++
         [Effect.startTransportReads] ++
         (match pskIdentity with
          | some id => [Effect.getPsk id]
          | none => []) ++
         [Effect.engineConnect])

/-- The low-level `AsyncFizzClientT::connect` shape (socket address, connect
callback, timeouts): the same two `CHECK`s, then either the raw socket
connect (Engine connect deferred to `connectSuccess`) or a `BAD_ARGS` error
when no underlying `AsyncSocket` exists. -/
def connectSocket (s : ClientState) (callback : Option FizzCallback)
    (pskIdentity : Option Nat) (totalTimeoutZero : Bool)
    (underlyingSocketPresent : Bool) : ConnectResult :=
  if callback.isNone then ConnectResult.fatalAssert
  else if s.callback.isSome then ConnectResult.fatalAssert
  else
    let s1 := { s with callback := callback, pskIdentity := pskIdentity }
    let eTimeout : List Effect :=
      if totalTimeoutZero then [] else [Effect.startHandshakeTimeout]
    if underlyingSocketPresent then
      ConnectResult.ok s1 (eTimeout ++ [Effect.socketConnect])
    else
      let r := deliverAllErrors s1 AseType.BAD_ARGS false
      ConnectResult.ok r.1 (eTimeout ++ r.2)

/-- Events driving one connect attempt after `connect`: application writes,
the Engine's success/error reports, transport/timeout/protocol errors routed
through `deliverAllErrors`, the close entry points, and the remaining
dispatcher actions. -/
inductive Event
  | writeData (cb : Option Nat) (buf : List Nat) (flags : Nat)
  | earlySuccess (maxEarlyDataSize : Nat)
  | fullSuccess (earlyDataAccepted : Bool)
  | errorEv (ex : AseType) (closeTransport : Bool)
  | reportErrorEv
  | earlyWriteFailedEv (w : AppWrite)
  | waitForDataEv
  | newCachedPskEv
  | closeEv
  | closeWithResetEv
  | closeNowEv
  deriving DecidableEq, Repr

/-- One dispatch step. -/
def step (s : ClientState) (e : Event) : ClientState × List Effect :=
  match e with
  | Event.writeData cb buf flags => writeAppData s cb buf flags
  | Event.earlySuccess m => reportEarlyHandshakeSuccess s m
  | Event.fullSuccess acc => reportHandshakeSuccess s acc
  | Event.errorEv ex ct => deliverAllErrors s ex ct
  | Event.reportErrorEv => reportError s
  | Event.earlyWriteFailedEv w => reportEarlyWriteFailed s w
  | Event.waitForDataEv => waitForData s
  | Event.newCachedPskEv => newCachedPsk s
  | Event.closeEv => close s
  | Event.closeWithResetEv => closeWithReset s
  | Event.closeNowEv => closeNow s

/-- Run a sequence of events, concatenating the effect traces.  Re-entrant
calls made from inside an application callback appear as later events acting
on the state already updated before the callback effect was emitted. -/
def run (s : ClientState) : List Event → ClientState × List Effect
  | [] => (s, [])
  | e :: es =>
    let r1 := step s e
    let r2 := run r1.1 es
    (r2.1, r1.2 ++ r2.2)

/-- A fold of `writeAppData` over a list of (callback, payload, flags)
requests. -/
def runWrites (s : ClientState) :
    List (Option Nat × List Nat × Nat) → ClientState × List Effect
  | [] => (s, [])
  | w :: ws =>
    let r1 := writeAppData s w.1 w.2.1 w.2.2
    let r2 := runWrites r1.1 ws
    (r2.1, r1.2 ++ r2.2)

/-- A sequence of payloads fits the early-data budget when each one fits the
budget left by its predecessors. -/
def allFit : Int → List (List Nat) → Prop
  | _, [] => True
  | r, b :: bs => Int.ofNat b.length ≤ r ∧ allFit (r - Int.ofNat b.length) bs

/-- Effects that resolve the handshake completion sink. -/
def isSinkResolution : Effect → Bool
  | Effect.hsSuccess _ => true
  | Effect.hsError _ _ => true
  | _ => false

/-- Number of sink resolutions in a trace. -/
def sinkCount (es : List Effect) : Nat :=
  (es.filter (fun e => isSinkResolution e)).length

/-- 1 while a handshake observer is stored, 0 otherwise. -/
def pot (s : ClientState) : Nat :=
  if s.callback.isSome then 1 else 0

/-- Effects that notify the replay-safety observer. -/
def isReplayFire : Effect → Bool
  | Effect.onReplaySafe _ => true
  | _ => false

/-- Number of replay-safety notifications in a trace. -/
def replayCount (es : List Effect) : Nat :=
  (es.filter (fun e => isReplayFire e)).length

/-- 1 while a replay-safety observer is stored, 0 otherwise. -/
def rpot (s : ClientState) : Nat :=
  if s.replaySafetyCallback.isSome then 1 else 0

/-- Formalisation of the specification's words for the connect-misuse claim:
the call "fails with an InvalidUsage error" delivered through one of the
error channels (rather than aborting). -/
def failsWithInvalidUsage (r : ConnectResult) : Prop :=
  ∃ s effs, r = ConnectResult.ok s effs ∧
    ((∃ ct, Effect.deliverError AseType.INVALID_USAGE ct ∈ effs) ∨
     (∃ cb, Effect.hsError cb AseType.INVALID_USAGE ∈ effs) ∨
     (∃ c, Effect.writeErr c AseType.INVALID_USAGE ∈ effs))

/-- The pending queue emptied: the state of `earlyDataState_` after the
`deliverAllErrors` drain loop. -/
def clearPendings : Option EarlyDataState → Option EarlyDataState
  | some eds => some { eds with pendingAppWrites := [] }
  | none => none

/-- The sink-failure effects produced by `deliverHandshakeError`. -/
def sinkErrEffects : Option FizzCallback → AseType → List Effect
  | some cb, ex => [Effect.cancelHandshakeTimeout, Effect.hsError cb ex]
  | none, _ => []

/-- The queued-write-failure effects produced by the drain loop of
`deliverAllErrors`. -/
def pendingFailEffects : Option EarlyDataState → AseType → List Effect
  | some eds, ex => failPendingWrites eds.pendingAppWrites ex
  | none, _ => []

/-! ## Shared lemmas -/

theorem deliverAllErrors_eq (s : ClientState) (ex : AseType) (ct : Bool) :
    deliverAllErrors s ex ct =
      ({ s with
          callback := none,
          replaySafetyCallback := none,
          fizzInErrorState := true,
          earlyDataState := clearPendings s.earlyDataState },
       sinkErrEffects s.callback ex ++ pendingFailEffects s.earlyDataState ex ++
       [Effect.engineMoveToErrorState ex, Effect.deliverError ex ct]) := by
  cases hc : s.callback <;> cases he : s.earlyDataState <;>
    simp [deliverAllErrors, deliverHandshakeError, clearPendings, sinkErrEffects,
      pendingFailEffects, hc, he]

theorem writeAppData_error_unchanged (s : ClientState) (cb : Option Nat)
    (buf : List Nat) (fl : Nat) :
    error (writeAppData s cb buf fl).1 = error s ∧
    (writeAppData s cb buf fl).1.callback = s.callback ∧
    (writeAppData s cb buf fl).1.replaySafetyCallback = s.replaySafetyCallback ∧
    (writeAppData s cb buf fl).1.earlyDataRejectionPolicy = s.earlyDataRejectionPolicy := by
  unfold writeAppData
  split
  · exact ⟨rfl, rfl, rfl, rfl⟩
  · split
    · split
      · exact ⟨rfl, rfl, rfl, rfl⟩
      · exact ⟨rfl, rfl, rfl, rfl⟩
    · exact ⟨rfl, rfl, rfl, rfl⟩

/-! ## C1: the early-data write decision rule -/

/-- C1: while Early Data State is present (and the session is not errored),
a write is queued with the budget forced to 0 when the pending queue is
non-empty or the payload exceeds the remaining budget; otherwise the payload
size is subtracted from the budget, the payload is appended to the resend
buffer exactly when the policy is `AutomaticResend`, and the write is handed
to the Engine as an early application write. -/
theorem writeAppData_early_decision (s : ClientState) (cb : Option Nat)
    (buf : List Nat) (fl : Nat) (eds : EarlyDataState)
    (herr : error s = false) (heds : s.earlyDataState = some eds) :
    ((¬ eds.pendingAppWrites = [] ∨ eds.remainingEarlyData < Int.ofNat buf.length) →
      writeAppData s cb buf fl =
        ({ s with
            earlyDataState := some { eds with
              remainingEarlyData := 0,
              pendingAppWrites := eds.pendingAppWrites ++ [⟨cb, buf, fl⟩] } }, [])) ∧
    (eds.pendingAppWrites = [] → Int.ofNat buf.length ≤ eds.remainingEarlyData →
      writeAppData s cb buf fl =
        ({ s with
            earlyDataState := some
              ⟨eds.remainingEarlyData - Int.ofNat buf.length,
               eds.pendingAppWrites,
               if s.earlyDataRejectionPolicy = EarlyDataRejectionPolicy.AutomaticResend
                 then eds.resendBuffer ++ buf else eds.resendBuffer⟩ },
         [Effect.engineEarlyAppWrite ⟨cb, buf, fl⟩])) := by
  constructor
  · intro hcond
    unfold writeAppData
    simp only [herr, heds, Bool.false_eq_true, if_false]
    rw [if_pos hcond]
  · intro hp hfit
    unfold writeAppData
    simp only [herr, heds, Bool.false_eq_true, if_false]
    rw [if_neg (by push_neg; exact ⟨by simpa using hp, hfit⟩)]
    by_cases hpol :
        s.earlyDataRejectionPolicy = EarlyDataRejectionPolicy.AutomaticResend <;>
      simp [hpol, hp]

def c1StateSend : ClientState :=
  ⟨none, true, false, false, some ⟨10, [], []⟩, none, none,
   EarlyDataRejectionPolicy.AutomaticResend, true⟩

def c1StateQueue : ClientState :=
  ⟨none, true, false, false, some ⟨0, [⟨some 1, [9], 0⟩], []⟩, none, none,
   EarlyDataRejectionPolicy.AutomaticResend, true⟩

/-- Witness for C1 at concrete inputs: one queued write, one early send. -/
theorem writeAppData_early_decision_witness :
    writeAppData c1StateQueue (some 2) [7] 0 =
      ({ c1StateQueue with
          earlyDataState := some ⟨0, [⟨some 1, [9], 0⟩, ⟨some 2, [7], 0⟩], []⟩ }, []) ∧
    writeAppData c1StateSend (some 2) [7, 8] 0 =
      ({ c1StateSend with earlyDataState := some ⟨8, [], [7, 8]⟩ },
       [Effect.engineEarlyAppWrite ⟨some 2, [7, 8], 0⟩]) := by
  constructor
  · have h := (writeAppData_early_decision c1StateQueue (some 2) [7] 0
      ⟨0, [⟨some 1, [9], 0⟩], []⟩ rfl rfl).1 (by decide)
    rw [h]
    decide
  · have h := (writeAppData_early_decision c1StateSend (some 2) [7, 8] 0
      ⟨10, [], []⟩ rfl rfl).2 rfl (by decide)
    rw [h]
    decide

/-! ## C7: the early-data budget invariant -/

/-- C7: while Early Data State is present and the session is not errored,
across any sequence of application writes the remaining budget stays
non-negative and never increases; once a write has been queued the budget is
0 and stays 0, every subsequent write is queued (appended in order) rather
than sent early, and no early application write reaches the Engine. -/
theorem earlyData_budget_invariant (ws : List (Option Nat × List Nat × Nat))
    (s : ClientState) (eds : EarlyDataState)
    (herr : error s = false) (heds : s.earlyDataState = some eds)
    (hnn : 0 ≤ eds.remainingEarlyData)
    (hforced : eds.pendingAppWrites ≠ [] → eds.remainingEarlyData = 0) :
    ∃ eds', (runWrites s ws).1.earlyDataState = some eds' ∧
      0 ≤ eds'.remainingEarlyData ∧
      eds'.remainingEarlyData ≤ eds.remainingEarlyData ∧
      (eds'.pendingAppWrites ≠ [] → eds'.remainingEarlyData = 0) ∧
      (eds.pendingAppWrites ≠ [] →
        eds'.remainingEarlyData = 0 ∧
        eds'.pendingAppWrites =
          eds.pendingAppWrites ++ ws.map (fun w => AppWrite.mk w.1 w.2.1 w.2.2) ∧
        ∀ w, Effect.engineEarlyAppWrite w ∉ (runWrites s ws).2) := by
  induction ws generalizing s eds with
  | nil =>
    refine ⟨eds, heds, hnn, le_refl _, hforced, fun hne => ?_⟩
    exact ⟨hforced hne, by simp [runWrites], by simp [runWrites]⟩
  | cons w ws ih =>
    by_cases hcond : ¬ eds.pendingAppWrites = [] ∨
        eds.remainingEarlyData < Int.ofNat w.2.1.length
    · have hw := (writeAppData_early_decision s w.1 w.2.1 w.2.2 eds herr heds).1 hcond
      obtain ⟨eds', h1, h2, h3, h4, h5⟩ :=
        ih ({ s with
              earlyDataState := some { eds with
                remainingEarlyData := 0,
                pendingAppWrites := eds.pendingAppWrites ++ [⟨w.1, w.2.1, w.2.2⟩] } })
          { eds with
            remainingEarlyData := 0,
            pendingAppWrites := eds.pendingAppWrites ++ [⟨w.1, w.2.1, w.2.2⟩] }
          herr rfl (le_refl 0) (fun _ => rfl)
      have h5' := h5 (by simp)
      refine ⟨eds', ?_, h2, le_trans h3 hnn, h4, fun hne => ?_⟩
      · simpa [runWrites, hw] using h1
      · refine ⟨h5'.1, ?_, ?_⟩
        · rw [show (w :: ws).map (fun w => AppWrite.mk w.1 w.2.1 w.2.2) =
              AppWrite.mk w.1 w.2.1 w.2.2 :: ws.map (fun w => AppWrite.mk w.1 w.2.1 w.2.2)
              from rfl]
          rw [h5'.2.1]
          simp
        · intro v
          have hm := h5'.2.2 v
          simp only [runWrites, hw]
          simpa using hm
    · push_neg at hcond
      obtain ⟨hp, hfit⟩ := hcond
      have hw := (writeAppData_early_decision s w.1 w.2.1 w.2.2 eds herr heds).2 hp hfit
      obtain ⟨eds', h1, h2, h3, h4, _⟩ :=
        ih ({ s with
              earlyDataState := some
                ⟨eds.remainingEarlyData - Int.ofNat w.2.1.length,
                 eds.pendingAppWrites,
                 if s.earlyDataRejectionPolicy = EarlyDataRejectionPolicy.AutomaticResend
                   then eds.resendBuffer ++ w.2.1 else eds.resendBuffer⟩ })
          ⟨eds.remainingEarlyData - Int.ofNat w.2.1.length,
           eds.pendingAppWrites,
           if s.earlyDataRejectionPolicy = EarlyDataRejectionPolicy.AutomaticResend
             then eds.resendBuffer ++ w.2.1 else eds.resendBuffer⟩
          herr rfl (sub_nonneg.mpr hfit) (fun hne => absurd hp hne)
      refine ⟨eds', ?_, h2, ?_, h4, fun hne => absurd hp hne⟩
      · simpa [runWrites, hw] using h1
      · exact le_trans h3 (sub_le_self _ (Int.ofNat_nonneg _))

def c7State : ClientState :=
  ⟨none, true, false, false, some ⟨5, [], []⟩, none, none,
   EarlyDataRejectionPolicy.AutomaticResend, true⟩

/-- Witness for C7 at a concrete input: budget 5, a 3-byte early write
followed by a 4-byte write that queues and a further write that also
queues. -/
theorem earlyData_budget_invariant_witness :
    ∃ eds', (runWrites c7State
        [(some 1, [1, 2, 3], 0), (some 2, [4, 5, 6, 7], 0),
         (some 3, [8], 0)]).1.earlyDataState = some eds' ∧
      0 ≤ eds'.remainingEarlyData ∧
      eds'.remainingEarlyData ≤ (5 : Int) ∧
      (eds'.pendingAppWrites ≠ [] → eds'.remainingEarlyData = 0) ∧
      (([] : List AppWrite) ≠ [] →
        eds'.remainingEarlyData = 0 ∧
        eds'.pendingAppWrites =
          ([] : List AppWrite) ++
            [(some 1, ([1, 2, 3] : List Nat), 0), (some 2, [4, 5, 6, 7], 0),
             (some 3, [8], 0)].map (fun w => AppWrite.mk w.1 w.2.1 w.2.2) ∧
        ∀ w, Effect.engineEarlyAppWrite w ∉ (runWrites c7State
          [(some 1, [1, 2, 3], 0), (some 2, [4, 5, 6, 7], 0),
           (some 3, [8], 0)]).2) :=
  earlyData_budget_invariant
    [(some 1, [1, 2, 3], 0), (some 2, [4, 5, 6, 7], 0), (some 3, [8], 0)]
    c7State ⟨5, [], []⟩ rfl rfl (by decide) (fun h => absurd rfl h)

/-! ## Counting lemmas for the sink and the replay-safety observer -/

theorem sinkCount_nil : sinkCount [] = 0 := rfl

theorem replayCount_nil : replayCount [] = 0 := rfl

theorem sinkCount_append (a b : List Effect) :
    sinkCount (a ++ b) = sinkCount a + sinkCount b := by
  simp [sinkCount, List.filter_append]

theorem replayCount_append (a b : List Effect) :
    replayCount (a ++ b) = replayCount a + replayCount b := by
  simp [replayCount, List.filter_append]

theorem sinkCount_cons (e : Effect) (es : List Effect) :
    sinkCount (e :: es) = (if isSinkResolution e then 1 else 0) + sinkCount es := by
  by_cases h : isSinkResolution e <;> simp [sinkCount, List.filter_cons, h] <;> omega

theorem replayCount_cons (e : Effect) (es : List Effect) :
    replayCount (e :: es) = (if isReplayFire e then 1 else 0) + replayCount es := by
  by_cases h : isReplayFire e <;> simp [replayCount, List.filter_cons, h] <;> omega

theorem sinkCount_eq_zero (es : List Effect)
    (h : ∀ e ∈ es, isSinkResolution e = false) : sinkCount es = 0 := by
  have : es.filter (fun e => isSinkResolution e) = [] :=
    List.filter_eq_nil_iff.mpr (by intro e he; simp [h e he])
  simp [sinkCount, this]

theorem replayCount_eq_zero (es : List Effect)
    (h : ∀ e ∈ es, isReplayFire e = false) : replayCount es = 0 := by
  have : es.filter (fun e => isReplayFire e) = [] :=
    List.filter_eq_nil_iff.mpr (by intro e he; simp [h e he])
  simp [replayCount, this]

theorem not_mem_of_replayCount_zero (es : List Effect) (h : replayCount es = 0)
    (c : Nat) : Effect.onReplaySafe c ∉ es := by
  intro hm
  have hf : es.filter (fun e => isReplayFire e) = [] := by
    have := List.length_eq_zero.mp h
    simpa [replayCount] using this
  have := List.filter_eq_nil_iff.mp hf _ hm
  simp [isReplayFire] at this

theorem mem_failPendingWrites (l : List AppWrite) (ex : AseType) (e : Effect)
    (h : e ∈ failPendingWrites l ex) : ∃ c, e = Effect.writeErr c ex := by
  unfold failPendingWrites at h
  obtain ⟨w, _, hw⟩ := List.mem_filterMap.mp h
  cases hcb : w.callback with
  | none => rw [hcb] at hw; simp at hw
  | some c => rw [hcb] at hw; simp at hw; exact ⟨c, hw.symm⟩

theorem sinkCount_failPendingWrites (l : List AppWrite) (ex : AseType) :
    sinkCount (failPendingWrites l ex) = 0 := by
  refine sinkCount_eq_zero _ (fun e he => ?_)
  obtain ⟨c, rfl⟩ := mem_failPendingWrites l ex e he
  rfl

theorem replayCount_failPendingWrites (l : List AppWrite) (ex : AseType) :
    replayCount (failPendingWrites l ex) = 0 := by
  refine replayCount_eq_zero _ (fun e he => ?_)
  obtain ⟨c, rfl⟩ := mem_failPendingWrites l ex e he
  rfl

theorem sinkCount_pendingFailEffects (o : Option EarlyDataState) (ex : AseType) :
    sinkCount (pendingFailEffects o ex) = 0 := by
  cases o with
  | none => rfl
  | some eds => exact sinkCount_failPendingWrites eds.pendingAppWrites ex

theorem replayCount_pendingFailEffects (o : Option EarlyDataState) (ex : AseType) :
    replayCount (pendingFailEffects o ex) = 0 := by
  cases o with
  | none => rfl
  | some eds => exact replayCount_failPendingWrites eds.pendingAppWrites ex

theorem sinkCount_map_appWrite (l : List AppWrite) :
    sinkCount (l.map Effect.engineAppWrite) = 0 := by
  refine sinkCount_eq_zero _ (fun e he => ?_)
  obtain ⟨w, _, rfl⟩ := List.mem_map.mp he
  rfl

theorem replayCount_map_appWrite (l : List AppWrite) :
    replayCount (l.map Effect.engineAppWrite) = 0 := by
  refine replayCount_eq_zero _ (fun e he => ?_)
  obtain ⟨w, _, rfl⟩ := List.mem_map.mp he
  rfl

theorem counts_resolveSinkSuccess (s : ClientState) :
    sinkCount (resolveSinkSuccess s).2 + pot (resolveSinkSuccess s).1 = pot s ∧
    replayCount (resolveSinkSuccess s).2 = 0 ∧
    (resolveSinkSuccess s).1.replaySafetyCallback = s.replaySafetyCallback := by
  cases hc : s.callback <;>
    simp [resolveSinkSuccess, hc, pot, sinkCount, replayCount, List.filter,
      isSinkResolution, isReplayFire]

theorem counts_fireReplaySafe (s : ClientState) :
    replayCount (fireReplaySafe s).2 + rpot (fireReplaySafe s).1 = rpot s ∧
    sinkCount (fireReplaySafe s).2 = 0 ∧
    (fireReplaySafe s).1.callback = s.callback := by
  cases hr : s.replaySafetyCallback <;>
    simp [fireReplaySafe, hr, rpot, sinkCount, replayCount, List.filter,
      isSinkResolution, isReplayFire]

theorem counts_sinkAndReplay (s : ClientState) :
    sinkCount (sinkAndReplay s).2 + pot (sinkAndReplay s).1 = pot s ∧
    replayCount (sinkAndReplay s).2 + rpot (sinkAndReplay s).1 = rpot s := by
  cases hc : s.callback <;> cases hr : s.replaySafetyCallback <;>
    simp [sinkAndReplay, resolveSinkSuccess, fireReplaySafe, hc, hr, pot, rpot,
      sinkCount, replayCount, List.filter, isSinkResolution, isReplayFire]

theorem counts_deliverHandshakeError (s : ClientState) (ex : AseType) :
    sinkCount (deliverHandshakeError s ex).2 + pot (deliverHandshakeError s ex).1
      = pot s ∧
    replayCount (deliverHandshakeError s ex).2 = 0 ∧
    (deliverHandshakeError s ex).1.replaySafetyCallback = s.replaySafetyCallback ∧
    (deliverHandshakeError s ex).1.callback = none := by
  cases hc : s.callback <;>
    simp [deliverHandshakeError, hc, pot, sinkCount, replayCount, List.filter,
      isSinkResolution, isReplayFire]

theorem counts_deliverAllErrors (s : ClientState) (ex : AseType) (ct : Bool) :
    sinkCount (deliverAllErrors s ex ct).2 + pot (deliverAllErrors s ex ct).1
      = pot s ∧
    replayCount (deliverAllErrors s ex ct).2 = 0 ∧
    rpot (deliverAllErrors s ex ct).1 = 0 := by
  rw [deliverAllErrors_eq]
  have h1 := sinkCount_pendingFailEffects s.earlyDataState ex
  have h2 := replayCount_pendingFailEffects s.earlyDataState ex
  cases hc : s.callback <;>
    simp [pot, rpot, hc, sinkCount_append, replayCount_append, h1, h2,
      sinkErrEffects, sinkCount_cons, replayCount_cons, sinkCount_nil,
      replayCount_nil, isSinkResolution, isReplayFire]

theorem handleEarlyReject_spec (s : ClientState) :
    (handleEarlyReject s).2.1.callback = s.callback ∧
    (handleEarlyReject s).2.1.replaySafetyCallback = s.replaySafetyCallback ∧
    (handleEarlyReject s).2.1.pskIdentity = s.pskIdentity ∧
    sinkCount (handleEarlyReject s).2.2 = 0 ∧
    replayCount (handleEarlyReject s).2.2 = 0 := by
  unfold handleEarlyReject
  split
  · exact ⟨rfl, rfl, rfl, rfl, rfl⟩
  · split
    · split
      · split
        · exact ⟨rfl, rfl, rfl, rfl, rfl⟩
        · exact ⟨rfl, rfl, rfl, rfl, rfl⟩
      · exact ⟨rfl, rfl, rfl, rfl, rfl⟩
    · exact ⟨rfl, rfl, rfl, rfl, rfl⟩

theorem counts_drainPendingAndFinish (s : ClientState) (pre : List Effect) :
    sinkCount (drainPendingAndFinish s pre).2 + pot (drainPendingAndFinish s pre).1
      = sinkCount pre + pot s ∧
    replayCount (drainPendingAndFinish s pre).2 +
        rpot (drainPendingAndFinish s pre).1
      = replayCount pre + rpot s := by
  unfold drainPendingAndFinish
  cases he : s.earlyDataState with
  | none =>
    obtain ⟨h1, h2⟩ := counts_sinkAndReplay s
    constructor <;> simp [sinkCount_append, replayCount_append] <;> omega
  | some eds =>
    obtain ⟨h1, h2⟩ := counts_sinkAndReplay { s with earlyDataState := none }
    have hp : pot ({ s with earlyDataState := none } : ClientState) = pot s := rfl
    have hr : rpot ({ s with earlyDataState := none } : ClientState) = rpot s := rfl
    rw [hp] at h1
    rw [hr] at h2
    constructor <;>
      simp [sinkCount_append, replayCount_append, sinkCount_map_appWrite,
        replayCount_map_appWrite] <;> omega

/-! ## Equation lemmas for the handshake-success handler -/

theorem resolveSinkSuccess_eq (s : ClientState) :
    resolveSinkSuccess s =
      ({ s with callback := none }, sinkSuccessEffects s.callback) := by
  obtain ⟨cb, tg, te, fe, eds, rc, pi, pol, em⟩ := s
  cases cb <;> rfl

theorem fireReplaySafe_eq (s : ClientState) :
    fireReplaySafe s =
      ({ s with replaySafetyCallback := none },
       replayFireEffects s.replaySafetyCallback) := by
  obtain ⟨cb, tg, te, fe, eds, rc, pi, pol, em⟩ := s
  cases rc <;> rfl

theorem sinkAndReplay_eq (s : ClientState) :
    sinkAndReplay s =
      ({ s with callback := none, replaySafetyCallback := none },
       sinkSuccessEffects s.callback ++
         replayFireEffects s.replaySafetyCallback) := by
  obtain ⟨cb, tg, te, fe, eds, rc, pi, pol, em⟩ := s
  cases cb <;> cases rc <;> rfl

theorem drainPendingAndFinish_eq (s : ClientState) (pre : List Effect) :
    drainPendingAndFinish s pre =
      ({ s with
          earlyDataState := none,
          callback := none,
          replaySafetyCallback := none },
       pre ++ drainEffects s.earlyDataState ++
         sinkSuccessEffects s.callback ++
         replayFireEffects s.replaySafetyCallback) := by
  obtain ⟨cb, tg, te, fe, eds, rc, pi, pol, em⟩ := s
  cases eds <;> cases cb <;> cases rc <;>
    simp [drainPendingAndFinish, sinkAndReplay, resolveSinkSuccess,
      fireReplaySafe, drainEffects, sinkSuccessEffects, replayFireEffects]

theorem reportHandshakeSuccess_none_eds (s : ClientState) (acc : Bool)
    (he : s.earlyDataState = none) :
    reportHandshakeSuccess s acc =
      ((sinkAndReplay s).1,
       Effect.cancelHandshakeTimeout :: (sinkAndReplay s).2) := by
  unfold reportHandshakeSuccess
  rw [he]

theorem reportHandshakeSuccess_accepted (s : ClientState) (eds : EarlyDataState)
    (he : s.earlyDataState = some eds) :
    reportHandshakeSuccess s true =
      ((drainPendingAndFinish s []).1,
       Effect.cancelHandshakeTimeout :: (drainPendingAndFinish s []).2) := by
  unfold reportHandshakeSuccess
  rw [he]
  rfl

theorem reportHandshakeSuccess_reject_fatal (s : ClientState)
    (eds : EarlyDataState) (ex : AseType) (sr : ClientState) (er : List Effect)
    (he : s.earlyDataState = some eds)
    (hhr : handleEarlyReject s = (some ex, sr, er)) :
    reportHandshakeSuccess s false =
      ({ (deliverAllErrors sr ex false).1 with transportGood := false },
       Effect.cancelHandshakeTimeout ::
         (er ++ removePskEffects sr.pskIdentity ++
          (deliverAllErrors sr ex false).2 ++ [Effect.transportCloseNow])) := by
  unfold reportHandshakeSuccess
  rw [he, hhr]
  rfl

theorem reportHandshakeSuccess_reject_resend (s : ClientState)
    (eds : EarlyDataState) (sr : ClientState) (er : List Effect)
    (he : s.earlyDataState = some eds)
    (hhr : handleEarlyReject s = (none, sr, er)) :
    reportHandshakeSuccess s false =
      ((drainPendingAndFinish sr er).1,
       Effect.cancelHandshakeTimeout :: (drainPendingAndFinish sr er).2) := by
  unfold reportHandshakeSuccess
  rw [he, hhr]
  rfl

/-! ## Per-operation counting lemmas -/

theorem sinkCount_removePskEffects (o : Option Nat) :
    sinkCount (removePskEffects o) = 0 := by
  cases o <;> rfl

theorem replayCount_removePskEffects (o : Option Nat) :
    replayCount (removePskEffects o) = 0 := by
  cases o <;> rfl

theorem sinkCount_drainEffects (o : Option EarlyDataState) :
    sinkCount (drainEffects o) = 0 := by
  cases o with
  | none => rfl
  | some eds => exact sinkCount_map_appWrite eds.pendingAppWrites

theorem replayCount_drainEffects (o : Option EarlyDataState) :
    replayCount (drainEffects o) = 0 := by
  cases o with
  | none => rfl
  | some eds => exact replayCount_map_appWrite eds.pendingAppWrites

theorem counts_writeAppData (s : ClientState) (cb : Option Nat) (buf : List Nat)
    (fl : Nat) :
    sinkCount (writeAppData s cb buf fl).2 = 0 ∧
    replayCount (writeAppData s cb buf fl).2 = 0 := by
  unfold writeAppData
  split
  · cases cb <;>
      simp [sinkCount_nil, replayCount_nil, sinkCount_cons, replayCount_cons,
        isSinkResolution, isReplayFire]
  · split
    · split <;>
        simp [sinkCount_nil, replayCount_nil, sinkCount_cons, replayCount_cons,
          isSinkResolution, isReplayFire]
    · simp [sinkCount_nil, replayCount_nil, sinkCount_cons, replayCount_cons,
        isSinkResolution, isReplayFire]

theorem counts_reportEarlyHandshakeSuccess (s : ClientState) (m : Nat) :
    sinkCount (reportEarlyHandshakeSuccess s m).2 +
        pot (reportEarlyHandshakeSuccess s m).1 = pot s ∧
    replayCount (reportEarlyHandshakeSuccess s m).2 = 0 ∧
    rpot (reportEarlyHandshakeSuccess s m).1 = rpot s := by
  unfold reportEarlyHandshakeSuccess
  rw [resolveSinkSuccess_eq]
  cases hc : s.callback <;> cases hr : s.replaySafetyCallback <;>
    simp [pot, rpot, hc, hr, sinkSuccessEffects, sinkCount_nil, replayCount_nil,
      sinkCount_cons, replayCount_cons, isSinkResolution, isReplayFire]

theorem counts_reportHandshakeSuccess (s : ClientState) (acc : Bool) :
    sinkCount (reportHandshakeSuccess s acc).2 +
        pot (reportHandshakeSuccess s acc).1 ≤ pot s ∧
    replayCount (reportHandshakeSuccess s acc).2 +
        rpot (reportHandshakeSuccess s acc).1 ≤ rpot s := by
  cases he : s.earlyDataState with
  | none =>
    rw [reportHandshakeSuccess_none_eds s acc he]
    obtain ⟨h1, h2⟩ := counts_sinkAndReplay s
    constructor <;>
      simp [sinkCount_cons, replayCount_cons, isSinkResolution, isReplayFire] <;>
      omega
  | some eds =>
    cases acc with
    | true =>
      rw [reportHandshakeSuccess_accepted s eds he]
      obtain ⟨h1, h2⟩ := counts_drainPendingAndFinish s []
      rw [sinkCount_nil] at h1
      rw [replayCount_nil] at h2
      constructor <;>
        simp [sinkCount_cons, replayCount_cons, isSinkResolution, isReplayFire] <;>
        omega
    | false =>
      rcases hhr : handleEarlyReject s with ⟨o, sr, er⟩
      obtain ⟨hcb, hrc, hpi, hs0, hr0⟩ := handleEarlyReject_spec s
      rw [hhr] at hcb hrc hpi hs0 hr0
      simp only at hcb hrc hpi hs0 hr0
      have hpot : pot sr = pot s := by rw [pot, pot, hcb]
      have hrpot : rpot sr = rpot s := by rw [rpot, rpot, hrc]
      cases o with
      | some ex =>
        rw [reportHandshakeSuccess_reject_fatal s eds ex sr er he hhr]
        obtain ⟨d1, d2, d3⟩ := counts_deliverAllErrors sr ex false
        have hp1 : pot ({ (deliverAllErrors sr ex false).1 with
            transportGood := false } : ClientState)
              = pot (deliverAllErrors sr ex false).1 := rfl
        have hr1 : rpot ({ (deliverAllErrors sr ex false).1 with
            transportGood := false } : ClientState)
              = rpot (deliverAllErrors sr ex false).1 := rfl
        constructor <;>
          simp [sinkCount_cons, replayCount_cons, sinkCount_append,
            replayCount_append, isSinkResolution, isReplayFire, hs0, hr0,
            sinkCount_removePskEffects, replayCount_removePskEffects,
            sinkCount_nil, replayCount_nil, hp1, hr1] <;>
          omega
      | none =>
        rw [reportHandshakeSuccess_reject_resend s eds sr er he hhr]
        obtain ⟨h1, h2⟩ := counts_drainPendingAndFinish sr er
        rw [hs0] at h1
        rw [hr0] at h2
        constructor <;>
          simp [sinkCount_cons, replayCount_cons, isSinkResolution,
            isReplayFire] <;>
          omega

theorem counts_reportError (s : ClientState) :
    sinkCount (reportError s).2 + pot (reportError s).1 = pot s ∧
    replayCount (reportError s).2 = 0 ∧
    rpot (reportError s).1 = 0 := by
  unfold reportError
  obtain ⟨h1, h2, h3, h4⟩ := counts_deliverHandshakeError s AseType.SSL_ERROR
  obtain ⟨d1, d2, d3⟩ :=
    counts_deliverAllErrors (deliverHandshakeError s AseType.SSL_ERROR).1
      AseType.SSL_ERROR true
  have hp0 : pot (deliverHandshakeError s AseType.SSL_ERROR).1 = 0 := by
    rw [pot, h4]; rfl
  constructor
  · simp only [sinkCount_append]
    omega
  · constructor
    · simp only [replayCount_append]
      omega
    · exact d3

theorem counts_close (s : ClientState) :
    sinkCount (close s).2 + pot (close s).1 ≤ pot s ∧
    replayCount (close s).2 + rpot (close s).1 ≤ rpot s ∧
    replayCount (close s).2 = 0 := by
  unfold close
  split
  · refine ⟨?_, ?_, ?_⟩ <;>
      simp [sinkCount_cons, replayCount_cons, sinkCount_nil, replayCount_nil,
        isSinkResolution, isReplayFire]
  · obtain ⟨d1, d2, d3⟩ := counts_deliverAllErrors s AseType.END_OF_FILE false
    have hp1 : pot ({ (deliverAllErrors s AseType.END_OF_FILE false).1 with
        transportGood := false } : ClientState)
          = pot (deliverAllErrors s AseType.END_OF_FILE false).1 := rfl
    have hr1 : rpot ({ (deliverAllErrors s AseType.END_OF_FILE false).1 with
        transportGood := false } : ClientState)
          = rpot (deliverAllErrors s AseType.END_OF_FILE false).1 := rfl
    refine ⟨?_, ?_, ?_⟩ <;>
      simp [sinkCount_append, replayCount_append, sinkCount_cons,
        replayCount_cons, sinkCount_nil, replayCount_nil, isSinkResolution,
        isReplayFire, hp1, hr1, d2] <;>
      omega

theorem counts_closeWithReset (s : ClientState) :
    sinkCount (closeWithReset s).2 + pot (closeWithReset s).1 ≤ pot s ∧
    replayCount (closeWithReset s).2 + rpot (closeWithReset s).1 ≤ rpot s ∧
    replayCount (closeWithReset s).2 = 0 := by
  unfold closeWithReset
  obtain ⟨d1, d2, d3⟩ := counts_deliverAllErrors s AseType.END_OF_FILE false
  have hp1 : pot ({ (deliverAllErrors s AseType.END_OF_FILE false).1 with
      transportGood := false } : ClientState)
        = pot (deliverAllErrors s AseType.END_OF_FILE false).1 := rfl
  have hr1 : rpot ({ (deliverAllErrors s AseType.END_OF_FILE false).1 with
      transportGood := false } : ClientState)
        = rpot (deliverAllErrors s AseType.END_OF_FILE false).1 := rfl
  have he0 : sinkCount (if s.transportGood = true then [Effect.engineAppClose]
      else []) = 0 := by
    split <;> rfl
  have he1 : replayCount (if s.transportGood = true then [Effect.engineAppClose]
      else []) = 0 := by
    split <;> rfl
  refine ⟨?_, ?_, ?_⟩ <;>
    simp [sinkCount_append, replayCount_append, sinkCount_cons,
      replayCount_cons, sinkCount_nil, replayCount_nil, isSinkResolution,
      isReplayFire, hp1, hr1, d2, he0, he1] <;>
    omega

theorem counts_closeNow (s : ClientState) :
    sinkCount (closeNow s).2 + pot (closeNow s).1 ≤ pot s ∧
    replayCount (closeNow s).2 + rpot (closeNow s).1 ≤ rpot s ∧
    replayCount (closeNow s).2 = 0 := by
  unfold closeNow
  obtain ⟨d1, d2, d3⟩ := counts_deliverAllErrors s AseType.END_OF_FILE false
  have hp1 : pot ({ (deliverAllErrors s AseType.END_OF_FILE false).1 with
      transportGood := false } : ClientState)
        = pot (deliverAllErrors s AseType.END_OF_FILE false).1 := rfl
  have hr1 : rpot ({ (deliverAllErrors s AseType.END_OF_FILE false).1 with
      transportGood := false } : ClientState)
        = rpot (deliverAllErrors s AseType.END_OF_FILE false).1 := rfl
  have he0 : sinkCount (if s.transportGood = true then [Effect.engineAppClose]
      else []) = 0 := by
    split <;> rfl
  have he1 : replayCount (if s.transportGood = true then [Effect.engineAppClose]
      else []) = 0 := by
    split <;> rfl
  refine ⟨?_, ?_, ?_⟩ <;>
    simp [sinkCount_append, replayCount_append, sinkCount_cons,
      replayCount_cons, sinkCount_nil, replayCount_nil, isSinkResolution,
      isReplayFire, hp1, hr1, d2, he0, he1] <;>
    omega

theorem counts_step (s : ClientState) (e : Event) :
    sinkCount (step s e).2 + pot (step s e).1 ≤ pot s ∧
    replayCount (step s e).2 + rpot (step s e).1 ≤ rpot s := by
  cases e with
  | writeData cb buf fl =>
    obtain ⟨h1, h2⟩ := counts_writeAppData s cb buf fl
    obtain ⟨-, hcb, hrc, -⟩ := writeAppData_error_unchanged s cb buf fl
    have hp : pot (writeAppData s cb buf fl).1 = pot s := by rw [pot, pot, hcb]
    have hr : rpot (writeAppData s cb buf fl).1 = rpot s := by
      rw [rpot, rpot, hrc]
    constructor <;> simp [step, h1, h2, hp, hr]
  | earlySuccess m =>
    obtain ⟨h1, h2, h3⟩ := counts_reportEarlyHandshakeSuccess s m
    constructor <;> simp [step, h1.le, h2, h3]
  | fullSuccess acc => exact counts_reportHandshakeSuccess s acc
  | errorEv ex ct =>
    obtain ⟨h1, h2, h3⟩ := counts_deliverAllErrors s ex ct
    constructor <;> simp [step, h1.le, h2, h3] <;> omega
  | reportErrorEv =>
    obtain ⟨h1, h2, h3⟩ := counts_reportError s
    constructor <;> simp [step, h1.le, h2, h3]
  | earlyWriteFailedEv w =>
    cases hw : w.callback <;>
      constructor <;>
        simp [step, reportEarlyWriteFailed, hw, sinkCount_nil, replayCount_nil,
          sinkCount_cons, replayCount_cons, isSinkResolution, isReplayFire]
  | waitForDataEv =>
    constructor <;>
      by_cases hc : s.callback.isSome <;>
        simp [step, waitForData, hc, sinkCount_nil, replayCount_nil,
          sinkCount_cons, replayCount_cons, isSinkResolution, isReplayFire]
  | newCachedPskEv =>
    cases hp : s.pskIdentity <;>
      constructor <;>
        simp [step, newCachedPsk, hp, sinkCount_nil, replayCount_nil,
          sinkCount_cons, replayCount_cons, isSinkResolution, isReplayFire]
  | closeEv =>
    obtain ⟨h1, h2, -⟩ := counts_close s
    exact ⟨h1, h2⟩
  | closeWithResetEv =>
    obtain ⟨h1, h2, -⟩ := counts_closeWithReset s
    exact ⟨h1, h2⟩
  | closeNowEv =>
    obtain ⟨h1, h2, -⟩ := counts_closeNow s
    exact ⟨h1, h2⟩

theorem counts_run (s : ClientState) (evs : List Event) :
    sinkCount (run s evs).2 + pot (run s evs).1 ≤ pot s ∧
    replayCount (run s evs).2 + rpot (run s evs).1 ≤ rpot s := by
  induction evs generalizing s with
  | nil => constructor <;> simp [run, sinkCount_nil, replayCount_nil]
  | cons e evs ih =>
    obtain ⟨h1, h2⟩ := counts_step s e
    obtain ⟨h3, h4⟩ := ih (step s e).1
    constructor <;> simp [run, sinkCount_append, replayCount_append] <;> omega

theorem replayCount_step_zero (s : ClientState) (e : Event)
    (h : ∀ b, e ≠ Event.fullSuccess b) : replayCount (step s e).2 = 0 := by
  cases e with
  | writeData cb buf fl => exact (counts_writeAppData s cb buf fl).2
  | earlySuccess m => exact (counts_reportEarlyHandshakeSuccess s m).2.1
  | fullSuccess acc => exact absurd rfl (h acc)
  | errorEv ex ct => exact (counts_deliverAllErrors s ex ct).2.1
  | reportErrorEv => exact (counts_reportError s).2.1
  | earlyWriteFailedEv w =>
    cases hw : w.callback <;>
      simp [step, reportEarlyWriteFailed, hw, replayCount_nil, replayCount_cons,
        isReplayFire]
  | waitForDataEv =>
    by_cases hc : s.callback.isSome <;>
      simp [step, waitForData, hc, replayCount_nil, replayCount_cons,
        isReplayFire]
  | newCachedPskEv =>
    cases hp : s.pskIdentity <;>
      simp [step, newCachedPsk, hp, replayCount_nil, replayCount_cons,
        isReplayFire]
  | closeEv => exact (counts_close s).2.2
  | closeWithResetEv => exact (counts_closeWithReset s).2.2
  | closeNowEv => exact (counts_closeNow s).2.2

/-! ## C4: the handshake completion sink is single-shot -/

/-- C4: over any sequence of post-connect events (success and error reports,
transport errors, timeouts routed through `deliverAllErrors`, closes, writes
— including re-entrant calls, which appear as later events on the state
already cleared before the observer was invoked), the number of sink
resolutions plus the still-stored observer never exceeds what was stored at
the start, and in particular the sink is resolved at most once. -/
theorem handshake_sink_single_shot (s : ClientState) (evs : List Event) :
    sinkCount (run s evs).2 + pot (run s evs).1 ≤ pot s ∧
    sinkCount (run s evs).2 ≤ 1 := by
  obtain ⟨h1, -⟩ := counts_run s evs
  have hp : pot s ≤ 1 := by unfold pot; split <;> omega
  exact ⟨h1, by omega⟩

/-! ## C8: replay safety and the replay-safety observer -/

/-- C8: `isReplaySafe` is false exactly while Early Data State is present; a
registered replay-safety observer is notified at most once over any event
sequence, and only a full-handshake-success event can notify it; the error
fan-out clears the observer without notifying it. -/
theorem replay_safety_contract :
    (∀ s : ClientState, isReplaySafe s = false ↔ s.earlyDataState.isSome = true) ∧
    (∀ (s : ClientState) (evs : List Event),
      replayCount (run s evs).2 + rpot (run s evs).1 ≤ rpot s ∧
      replayCount (run s evs).2 ≤ 1) ∧
    (∀ (s : ClientState) (e : Event) (c : Nat),
      Effect.onReplaySafe c ∈ (step s e).2 → ∃ b, e = Event.fullSuccess b) ∧
    (∀ (s : ClientState) (ex : AseType) (ct : Bool),
      (deliverAllErrors s ex ct).1.replaySafetyCallback = none ∧
      ∀ c, Effect.onReplaySafe c ∉ (deliverAllErrors s ex ct).2) := by
  refine ⟨?_, ?_, ?_, ?_⟩
  · intro s
    unfold isReplaySafe
    cases s.earlyDataState <;> simp
  · intro s evs
    obtain ⟨-, h2⟩ := counts_run s evs
    have hr : rpot s ≤ 1 := by unfold rpot; split <;> omega
    exact ⟨h2, by omega⟩
  · intro s e c hm
    by_cases hf : ∃ b, e = Event.fullSuccess b
    · exact hf
    · push_neg at hf
      have h0 := replayCount_step_zero s e (fun b => hf b)
      exact absurd hm (not_mem_of_replayCount_zero _ h0 c)
  · intro s ex ct
    constructor
    · rw [deliverAllErrors_eq]
    · intro c
      exact not_mem_of_replayCount_zero _ (counts_deliverAllErrors s ex ct).2.1 c

def c8State : ClientState :=
  ⟨none, true, false, false, some ⟨4, [], []⟩, some 6, none,
   EarlyDataRejectionPolicy.AutomaticResend, true⟩

/-- Witness for C8 at concrete inputs: a state in early data is not replay
safe; a full-success event notifies the stored observer (discharging the
membership hypothesis of the third conjunct); the error path clears without
notifying. -/
theorem replay_safety_contract_witness :
    (isReplaySafe c8State = false ↔ c8State.earlyDataState.isSome = true) ∧
    (∃ b, Event.fullSuccess true = Event.fullSuccess b) ∧
    ((deliverAllErrors c8State AseType.SSL_ERROR true).1.replaySafetyCallback
        = none ∧
      ∀ c, Effect.onReplaySafe c ∉
        (deliverAllErrors c8State AseType.SSL_ERROR true).2) := by
  refine ⟨replay_safety_contract.1 c8State, ?_, replay_safety_contract.2.2.2
    c8State AseType.SSL_ERROR true⟩
  exact replay_safety_contract.2.2.1 c8State (Event.fullSuccess true) 6
    (by decide)

/-! ## C6: the error fan-out path -/

/-- C6: `deliverAllErrors` performs, in this order: resolve the sink with
failure (cancelling the timer) if an observer is stored, fail every queued
early-data write with the error in FIFO order, move the Engine to its
terminal error state, and deliver the error (optionally closing the
transport); the replay-safety observer is cleared without being notified,
and afterwards the session reports an error. -/
theorem deliverAllErrors_fanout (s : ClientState) (ex : AseType) (ct : Bool) :
    (deliverAllErrors s ex ct).2 =
      sinkErrEffects s.callback ex ++
      pendingFailEffects s.earlyDataState ex ++
      [Effect.engineMoveToErrorState ex, Effect.deliverError ex ct] ∧
    (deliverAllErrors s ex ct).1.callback = none ∧
    (deliverAllErrors s ex ct).1.replaySafetyCallback = none ∧
    (∀ c, Effect.onReplaySafe c ∉ (deliverAllErrors s ex ct).2) ∧
    error (deliverAllErrors s ex ct).1 = true ∧
    (deliverAllErrors s ex ct).1.earlyDataState = clearPendings s.earlyDataState ∧
    (∀ eds, s.earlyDataState = some eds →
      pendingFailEffects s.earlyDataState ex =
        eds.pendingAppWrites.filterMap
          (fun w => w.callback.map (fun c => Effect.writeErr c ex))) := by
  refine ⟨?_, ?_, ?_, ?_, ?_, ?_, ?_⟩
  · rw [deliverAllErrors_eq]
  · rw [deliverAllErrors_eq]
  · rw [deliverAllErrors_eq]
  · intro c
    exact not_mem_of_replayCount_zero _ (counts_deliverAllErrors s ex ct).2.1 c
  · rw [deliverAllErrors_eq]
    simp [error]
  · rw [deliverAllErrors_eq]
  · intro eds he
    rw [he]
    rfl

def c6State : ClientState :=
  ⟨some (FizzCallback.handshake 3), true, false, false,
   some ⟨0, [⟨some 7, [1], 0⟩, ⟨none, [2], 0⟩, ⟨some 8, [3], 0⟩], [9]⟩,
   some 6, some 4, EarlyDataRejectionPolicy.AutomaticResend, true⟩

/-- Witness for C6 at a concrete input (discharging the hypothesis of the
FIFO conjunct): three queued writes, two with callbacks, fail in order. -/
theorem deliverAllErrors_fanout_witness :
    (deliverAllErrors c6State AseType.SSL_ERROR true).2 =
      sinkErrEffects c6State.callback AseType.SSL_ERROR ++
      pendingFailEffects c6State.earlyDataState AseType.SSL_ERROR ++
      [Effect.engineMoveToErrorState AseType.SSL_ERROR,
       Effect.deliverError AseType.SSL_ERROR true] ∧
    pendingFailEffects c6State.earlyDataState AseType.SSL_ERROR =
      [⟨some 7, [1], 0⟩, ⟨none, [2], 0⟩,
       (⟨some 8, [3], 0⟩ : AppWrite)].filterMap
        (fun w => w.callback.map (fun c => Effect.writeErr c AseType.SSL_ERROR)) := by
  refine ⟨(deliverAllErrors_fanout c6State AseType.SSL_ERROR true).1, ?_⟩
  exact (deliverAllErrors_fanout c6State AseType.SSL_ERROR true).2.2.2.2.2.2
    ⟨0, [⟨some 7, [1], 0⟩, ⟨none, [2], 0⟩, ⟨some 8, [3], 0⟩], [9]⟩ rfl

/-! ## C2: fatal early-data rejection -/

theorem handleEarlyReject_fatal (s : ClientState)
    (hpol : s.earlyDataRejectionPolicy =
      EarlyDataRejectionPolicy.FatalConnectionError) :
    handleEarlyReject s = (some AseType.EARLY_DATA_REJECTED, s, []) := by
  unfold handleEarlyReject
  rw [hpol]

/-- C2: with the `FatalConnectionError` policy and early data rejected while
Early Data State is present, the handler removes the cached PSK for the
supplied identity, resolves the sink with `EARLY_DATA_REJECTED`, fails every
queued write with `EARLY_DATA_REJECTED` in FIFO order, moves the Engine to
its error state, delivers the error, and closes the transport immediately. -/
theorem fatal_reject_behavior (s : ClientState) (eds : EarlyDataState)
    (hpol : s.earlyDataRejectionPolicy =
      EarlyDataRejectionPolicy.FatalConnectionError)
    (he : s.earlyDataState = some eds) :
    reportHandshakeSuccess s false =
      ({ s with
          callback := none,
          replaySafetyCallback := none,
          fizzInErrorState := true,
          transportGood := false,
          earlyDataState := some { eds with pendingAppWrites := [] } },
       Effect.cancelHandshakeTimeout ::
         (removePskEffects s.pskIdentity ++
          sinkErrEffects s.callback AseType.EARLY_DATA_REJECTED ++
          failPendingWrites eds.pendingAppWrites AseType.EARLY_DATA_REJECTED ++
          [Effect.engineMoveToErrorState AseType.EARLY_DATA_REJECTED,
           Effect.deliverError AseType.EARLY_DATA_REJECTED false,
           Effect.transportCloseNow])) ∧
    (∀ id, s.pskIdentity = some id →
      Effect.removePsk id ∈ (reportHandshakeSuccess s false).2) ∧
    Effect.transportCloseNow ∈ (reportHandshakeSuccess s false).2 := by
  have hmain : reportHandshakeSuccess s false =
      ({ s with
          callback := none,
          replaySafetyCallback := none,
          fizzInErrorState := true,
          transportGood := false,
          earlyDataState := some { eds with pendingAppWrites := [] } },
       Effect.cancelHandshakeTimeout ::
         (removePskEffects s.pskIdentity ++
          sinkErrEffects s.callback AseType.EARLY_DATA_REJECTED ++
          failPendingWrites eds.pendingAppWrites AseType.EARLY_DATA_REJECTED ++
          [Effect.engineMoveToErrorState AseType.EARLY_DATA_REJECTED,
           Effect.deliverError AseType.EARLY_DATA_REJECTED false,
           Effect.transportCloseNow])) := by
    rw [reportHandshakeSuccess_reject_fatal s eds AseType.EARLY_DATA_REJECTED s
      [] he (handleEarlyReject_fatal s hpol)]
    rw [deliverAllErrors_eq]
    rw [he]
    simp [clearPendings, pendingFailEffects, List.append_assoc]
  refine ⟨hmain, ?_, ?_⟩
  · intro id hid
    rw [hmain]
    simp [removePskEffects, hid]
  · rw [hmain]
    simp

def c2State : ClientState :=
  ⟨some (FizzCallback.handshake 3), true, false, false,
   some ⟨0, [⟨some 7, [1], 0⟩, ⟨some 8, [3], 0⟩], []⟩,
   some 6, some 4, EarlyDataRejectionPolicy.FatalConnectionError, true⟩

/-- Witness for C2 at a concrete input: two queued writes, a stored observer,
a PSK identity. -/
theorem fatal_reject_behavior_witness :
    reportHandshakeSuccess c2State false =
      ({ c2State with
          callback := none,
          replaySafetyCallback := none,
          fizzInErrorState := true,
          transportGood := false,
          earlyDataState := some ⟨0, [], []⟩ },
       Effect.cancelHandshakeTimeout ::
         (removePskEffects c2State.pskIdentity ++
          sinkErrEffects c2State.callback AseType.EARLY_DATA_REJECTED ++
          failPendingWrites [⟨some 7, [1], 0⟩, ⟨some 8, [3], 0⟩]
            AseType.EARLY_DATA_REJECTED ++
          [Effect.engineMoveToErrorState AseType.EARLY_DATA_REJECTED,
           Effect.deliverError AseType.EARLY_DATA_REJECTED false,
           Effect.transportCloseNow])) ∧
    Effect.removePsk 4 ∈ (reportHandshakeSuccess c2State false).2 := by
  constructor
  · have h := (fatal_reject_behavior c2State
      ⟨0, [⟨some 7, [1], 0⟩, ⟨some 8, [3], 0⟩], []⟩ rfl rfl).1
    rw [h]
  · exact (fatal_reject_behavior c2State
      ⟨0, [⟨some 7, [1], 0⟩, ⟨some 8, [3], 0⟩], []⟩ rfl rfl).2.1 4 rfl

/-! ## C3: automatic resend on early-data rejection -/

theorem handleEarlyReject_resend (s : ClientState) (eds : EarlyDataState)
    (hpol : s.earlyDataRejectionPolicy = EarlyDataRejectionPolicy.AutomaticResend)
    (hm : s.earlyParametersMatch = true)
    (he : s.earlyDataState = some eds)
    (hne : eds.resendBuffer ≠ []) :
    handleEarlyReject s =
      (none, { s with earlyDataState := some { eds with resendBuffer := [] } },
       [Effect.engineAppWrite ⟨none, eds.resendBuffer, 0⟩]) := by
  unfold handleEarlyReject
  rw [hpol, he]
  simp [hm, hne]

theorem handleEarlyReject_mismatch (s : ClientState)
    (hpol : s.earlyDataRejectionPolicy = EarlyDataRejectionPolicy.AutomaticResend)
    (hm : s.earlyParametersMatch = false) :
    handleEarlyReject s = (some AseType.EARLY_DATA_REJECTED, s, []) := by
  unfold handleEarlyReject
  rw [hpol]
  simp [hm]

theorem resendBuffer_accumulates (ws : List (Option Nat × List Nat × Nat))
    (s : ClientState) (eds : EarlyDataState)
    (herr : error s = false)
    (hpol : s.earlyDataRejectionPolicy = EarlyDataRejectionPolicy.AutomaticResend)
    (heds : s.earlyDataState = some eds)
    (hp : eds.pendingAppWrites = [])
    (hfit : allFit eds.remainingEarlyData (ws.map (fun w => w.2.1))) :
    ∃ eds1, (runWrites s ws).1.earlyDataState = some eds1 ∧
      eds1.resendBuffer = eds.resendBuffer ++ (ws.map (fun w => w.2.1)).join ∧
      eds1.pendingAppWrites = [] := by
  induction ws generalizing s eds with
  | nil => exact ⟨eds, heds, by simp, hp⟩
  | cons w ws ih =>
    simp only [List.map_cons, allFit] at hfit
    obtain ⟨hlen, hfit'⟩ := hfit
    have hw : writeAppData s w.1 w.2.1 w.2.2 =
        ({ s with
            earlyDataState := some
              ⟨eds.remainingEarlyData - Int.ofNat w.2.1.length,
               eds.pendingAppWrites, eds.resendBuffer ++ w.2.1⟩ },
         [Effect.engineEarlyAppWrite ⟨w.1, w.2.1, w.2.2⟩]) := by
      have h0 := (writeAppData_early_decision s w.1 w.2.1 w.2.2 eds herr heds).2
        hp hlen
      rw [h0, hpol]
      simp
    obtain ⟨eds1, h1, h2, h3⟩ :=
      ih ({ s with
            earlyDataState := some
              ⟨eds.remainingEarlyData - Int.ofNat w.2.1.length,
               eds.pendingAppWrites, eds.resendBuffer ++ w.2.1⟩ })
        ⟨eds.remainingEarlyData - Int.ofNat w.2.1.length,
         eds.pendingAppWrites, eds.resendBuffer ++ w.2.1⟩
        herr hpol rfl hp hfit'
    refine ⟨eds1, ?_, ?_, h3⟩
    · simpa [runWrites, hw] using h1
    · rw [h2]
      simp

/-- C3: with the `AutomaticResend` policy and early data rejected: when the
early parameters match and the resend buffer is non-empty, exactly one
callback-less ordinary write carrying the resend buffer is handed to the
Engine, followed by the drained pending writes in their original order, and
Early Data State is destroyed; when the parameters do not match, the
rejection becomes the fatal `EARLY_DATA_REJECTED` path; and the resend
buffer is the concatenation of the payloads sent early so far. -/
theorem automatic_resend_behavior (s : ClientState) (eds : EarlyDataState)
    (hpol : s.earlyDataRejectionPolicy = EarlyDataRejectionPolicy.AutomaticResend)
    (he : s.earlyDataState = some eds) :
    (s.earlyParametersMatch = true → eds.resendBuffer ≠ [] →
      reportHandshakeSuccess s false =
        ({ s with
            earlyDataState := none,
            callback := none,
            replaySafetyCallback := none },
         Effect.cancelHandshakeTimeout ::
           Effect.engineAppWrite ⟨none, eds.resendBuffer, 0⟩ ::
           (eds.pendingAppWrites.map Effect.engineAppWrite ++
            sinkSuccessEffects s.callback ++
            replayFireEffects s.replaySafetyCallback))) ∧
    (s.earlyParametersMatch = false →
      reportHandshakeSuccess s false =
        ({ s with
            callback := none,
            replaySafetyCallback := none,
            fizzInErrorState := true,
            transportGood := false,
            earlyDataState := some { eds with pendingAppWrites := [] } },
         Effect.cancelHandshakeTimeout ::
           (removePskEffects s.pskIdentity ++
            sinkErrEffects s.callback AseType.EARLY_DATA_REJECTED ++
            failPendingWrites eds.pendingAppWrites AseType.EARLY_DATA_REJECTED ++
            [Effect.engineMoveToErrorState AseType.EARLY_DATA_REJECTED,
             Effect.deliverError AseType.EARLY_DATA_REJECTED false,
             Effect.transportCloseNow]))) ∧
    (∀ ws, error s = false → eds.pendingAppWrites = [] →
      allFit eds.remainingEarlyData (ws.map (fun w => w.2.1)) →
      ∃ eds1, (runWrites s ws).1.earlyDataState = some eds1 ∧
        eds1.resendBuffer = eds.resendBuffer ++ (ws.map (fun w => w.2.1)).join) := by
  refine ⟨?_, ?_, ?_⟩
  · intro hm hne
    rw [reportHandshakeSuccess_reject_resend s eds
      ({ s with earlyDataState := some { eds with resendBuffer := [] } })
      [Effect.engineAppWrite ⟨none, eds.resendBuffer, 0⟩] he
      (handleEarlyReject_resend s eds hpol hm he hne)]
    rw [drainPendingAndFinish_eq]
    simp [drainEffects]
  · intro hm
    rw [reportHandshakeSuccess_reject_fatal s eds AseType.EARLY_DATA_REJECTED s
      [] he (handleEarlyReject_mismatch s hpol hm)]
    rw [deliverAllErrors_eq]
    rw [he]
    simp [clearPendings, pendingFailEffects, List.append_assoc]
  · intro ws herr hp hfit
    obtain ⟨eds1, h1, h2, -⟩ :=
      resendBuffer_accumulates ws s eds herr hpol he hp hfit
    exact ⟨eds1, h1, h2⟩

def c3State : ClientState :=
  ⟨some (FizzCallback.handshake 3), true, false, false,
   some ⟨0, [⟨some 7, [4], 0⟩], [1, 2]⟩, some 6, some 4,
   EarlyDataRejectionPolicy.AutomaticResend, true⟩

def c3Mismatch : ClientState :=
  { c3State with earlyParametersMatch := false }

def c3Fresh : ClientState :=
  ⟨none, true, false, false, some ⟨5, [], []⟩, none, none,
   EarlyDataRejectionPolicy.AutomaticResend, true⟩

/-- Witness for C3 at concrete inputs: one resend write followed by the
queued write; the mismatch case goes fatal; two early writes accumulate
their concatenation in the resend buffer. -/
theorem automatic_resend_behavior_witness :
    reportHandshakeSuccess c3State false =
      ({ c3State with
          earlyDataState := none,
          callback := none,
          replaySafetyCallback := none },
       Effect.cancelHandshakeTimeout ::
         Effect.engineAppWrite ⟨none, [1, 2], 0⟩ ::
         ([Effect.engineAppWrite ⟨some 7, [4], 0⟩] ++
          sinkSuccessEffects c3State.callback ++
          replayFireEffects c3State.replaySafetyCallback)) ∧
    reportHandshakeSuccess c3Mismatch false =
      ({ c3Mismatch with
          callback := none,
          replaySafetyCallback := none,
          fizzInErrorState := true,
          transportGood := false,
          earlyDataState := some ⟨0, [], [1, 2]⟩ },
       Effect.cancelHandshakeTimeout ::
         (removePskEffects c3Mismatch.pskIdentity ++
          sinkErrEffects c3Mismatch.callback AseType.EARLY_DATA_REJECTED ++
          failPendingWrites [⟨some 7, [4], 0⟩] AseType.EARLY_DATA_REJECTED ++
          [Effect.engineMoveToErrorState AseType.EARLY_DATA_REJECTED,
           Effect.deliverError AseType.EARLY_DATA_REJECTED false,
           Effect.transportCloseNow])) ∧
    (∃ eds1, (runWrites c3Fresh
        [(some 1, [1, 2], 0), (some 2, [3], 0)]).1.earlyDataState = some eds1 ∧
      eds1.resendBuffer =
        ([] : List Nat) ++
          ([(some 1, ([1, 2] : List Nat), 0),
            (some 2, ([3] : List Nat), 0)].map (fun w => w.2.1)).join) := by
  refine ⟨?_, ?_, ?_⟩
  · have h := (automatic_resend_behavior c3State ⟨0, [⟨some 7, [4], 0⟩], [1, 2]⟩
      rfl rfl).1 rfl (by decide)
    rw [h]
    decide
  · have h := (automatic_resend_behavior c3Mismatch
      ⟨0, [⟨some 7, [4], 0⟩], [1, 2]⟩ rfl rfl).2.1 rfl
    rw [h]
  · exact (automatic_resend_behavior c3Fresh ⟨5, [], []⟩ rfl rfl).2.2
      [(some 1, [1, 2], 0), (some 2, [3], 0)] rfl rfl (by norm_num [allFit])

/-! ## C10: the resend write carries no completion callback -/

/-- C10: the single ordinary write synthesized by `handleEarlyReject` under
`AutomaticResend` has no completion callback, and the path emits no write
completions, so early writes already completed with success never receive a
second completion when their data is resent. -/
theorem resend_write_no_callback (s : ClientState) (eds : EarlyDataState)
    (hpol : s.earlyDataRejectionPolicy = EarlyDataRejectionPolicy.AutomaticResend)
    (hm : s.earlyParametersMatch = true)
    (he : s.earlyDataState = some eds)
    (hne : eds.resendBuffer ≠ []) :
    (handleEarlyReject s).2.2 =
      [Effect.engineAppWrite ⟨none, eds.resendBuffer, 0⟩] ∧
    (∀ w, Effect.engineAppWrite w ∈ (handleEarlyReject s).2.2 →
      w.callback = none) ∧
    (∀ c, Effect.writeSuccess c ∉ (handleEarlyReject s).2.2) ∧
    (∀ c ex, Effect.writeErr c ex ∉ (handleEarlyReject s).2.2) := by
  rw [handleEarlyReject_resend s eds hpol hm he hne]
  refine ⟨rfl, ?_, ?_, ?_⟩
  · intro w hw
    simp at hw
    rw [hw]
  · intro c
    simp
  · intro c ex
    simp

/-- Witness for C10 at a concrete input. -/
theorem resend_write_no_callback_witness :
    (handleEarlyReject c3State).2.2 =
      [Effect.engineAppWrite ⟨none, [1, 2], 0⟩] ∧
    ∀ w, Effect.engineAppWrite w ∈ (handleEarlyReject c3State).2.2 →
      w.callback = none := by
  have h := resend_write_no_callback c3State ⟨0, [⟨some 7, [4], 0⟩], [1, 2]⟩
    rfl rfl rfl (by decide)
  exact ⟨h.1, h.2.1⟩

/-! ## C5: the close entry points -/

/-- The `fizzClient_.appClose()` call made while the transport is good. -/
def appCloseEffects : Bool → List Effect
  | true => [Effect.engineAppClose]
  | false => []

/-- The orchestrator state after the error-delivering close path: observer
and replay callback cleared, Engine errored, queued writes drained, transport
no longer good. -/
def closedState (s : ClientState) : ClientState :=
  { s with
      callback := none,
      replaySafetyCallback := none,
      fizzInErrorState := true,
      earlyDataState := clearPendings s.earlyDataState,
      transportGood := false }

theorem clearPendings_idem (o : Option EarlyDataState) :
    clearPendings (clearPendings o) = clearPendings o := by
  cases o <;> rfl

theorem closedState_idem (s : ClientState) :
    closedState (closedState s) = closedState s := by
  unfold closedState
  simp [clearPendings_idem]

theorem close_state (t : ClientState) :
    (close t).1 = if t.transportGood then t else closedState t := by
  unfold close
  cases hg : t.transportGood <;> rw [deliverAllErrors_eq] <;>
    simp [closedState, hg]

theorem closeWithReset_state (t : ClientState) :
    (closeWithReset t).1 = closedState t := by
  unfold closeWithReset
  rw [deliverAllErrors_eq]
  simp [closedState]

theorem closeNow_state (t : ClientState) :
    (closeNow t).1 = closedState t := by
  unfold closeNow
  rw [deliverAllErrors_eq]
  simp [closedState]

def c5State : ClientState :=
  ⟨none, true, false, false, some ⟨0, [⟨some 7, [1, 2], 0⟩], []⟩, none, none,
   EarlyDataRejectionPolicy.FatalConnectionError, true⟩

/-- C5 counterexample: with a good transport and a queued early-data write,
`close()` only asks the Engine for an application-level close — contrary to
the claim, the queued write is not failed with an end-of-file error and the
transport is not closed in this call. -/
theorem close_good_transport_counterexample :
    (close c5State).2 = [Effect.engineAppClose] ∧
    Effect.writeErr 7 AseType.END_OF_FILE ∉ (close c5State).2 ∧
    Effect.transportClose ∉ (close c5State).2 ∧
    (close c5State).1 = c5State := by
  refine ⟨rfl, by decide, by decide, rfl⟩

/-- C5 amended: `closeWithReset()` and `closeNow()` ask the Engine for an
application-level close when the transport is usable, then fail every queued
early-data write with `END_OF_FILE` through the error fan-out, then close the
transport with reset / immediate semantics; `close()` does this only when the
transport is already unusable, and with a usable transport only asks the
Engine for an application-level close; all three are idempotent on the
orchestrator state. -/
theorem close_functions_behavior (s : ClientState) :
    (s.transportGood = true → close s = (s, [Effect.engineAppClose])) ∧
    (s.transportGood = false →
      close s = (closedState s,
        sinkErrEffects s.callback AseType.END_OF_FILE ++
        pendingFailEffects s.earlyDataState AseType.END_OF_FILE ++
        [Effect.engineMoveToErrorState AseType.END_OF_FILE,
         Effect.deliverError AseType.END_OF_FILE false,
         Effect.transportClose])) ∧
    closeWithReset s = (closedState s,
      appCloseEffects s.transportGood ++
      sinkErrEffects s.callback AseType.END_OF_FILE ++
      pendingFailEffects s.earlyDataState AseType.END_OF_FILE ++
      [Effect.engineMoveToErrorState AseType.END_OF_FILE,
       Effect.deliverError AseType.END_OF_FILE false,
       Effect.transportCloseWithReset]) ∧
    closeNow s = (closedState s,
      appCloseEffects s.transportGood ++
      sinkErrEffects s.callback AseType.END_OF_FILE ++
      pendingFailEffects s.earlyDataState AseType.END_OF_FILE ++
      [Effect.engineMoveToErrorState AseType.END_OF_FILE,
       Effect.deliverError AseType.END_OF_FILE false,
       Effect.transportCloseNow]) ∧
    (close (close s).1).1 = (close s).1 ∧
    (closeWithReset (closeWithReset s).1).1 = (closeWithReset s).1 ∧
    (closeNow (closeNow s).1).1 = (closeNow s).1 := by
  have hclose : s.transportGood = false →
      close s = (closedState s,
        sinkErrEffects s.callback AseType.END_OF_FILE ++
        pendingFailEffects s.earlyDataState AseType.END_OF_FILE ++
        [Effect.engineMoveToErrorState AseType.END_OF_FILE,
         Effect.deliverError AseType.END_OF_FILE false,
         Effect.transportClose]) := by
    intro hg
    unfold close
    rw [hg]
    rw [deliverAllErrors_eq]
    simp [closedState, List.append_assoc]
  have hcwr : closeWithReset s = (closedState s,
      appCloseEffects s.transportGood ++
      sinkErrEffects s.callback AseType.END_OF_FILE ++
      pendingFailEffects s.earlyDataState AseType.END_OF_FILE ++
      [Effect.engineMoveToErrorState AseType.END_OF_FILE,
       Effect.deliverError AseType.END_OF_FILE false,
       Effect.transportCloseWithReset]) := by
    unfold closeWithReset
    rw [deliverAllErrors_eq]
    cases hg : s.transportGood <;>
      simp [closedState, appCloseEffects, hg, List.append_assoc]
  have hcn : closeNow s = (closedState s,
      appCloseEffects s.transportGood ++
      sinkErrEffects s.callback AseType.END_OF_FILE ++
      pendingFailEffects s.earlyDataState AseType.END_OF_FILE ++
      [Effect.engineMoveToErrorState AseType.END_OF_FILE,
       Effect.deliverError AseType.END_OF_FILE false,
       Effect.transportCloseNow]) := by
    unfold closeNow
    rw [deliverAllErrors_eq]
    cases hg : s.transportGood <;>
      simp [closedState, appCloseEffects, hg, List.append_assoc]
  have hcg : s.transportGood = true → close s = (s, [Effect.engineAppClose]) := by
    intro hg
    unfold close
    rw [hg]
    simp
  refine ⟨hcg, hclose, hcwr, hcn, ?_, ?_, ?_⟩
  · rw [close_state s, close_state]
    have hcsg : (closedState s).transportGood = false := rfl
    cases hg : s.transportGood with
    | true => simp [hg]
    | false => simp [hg, hcsg, closedState_idem]
  · rw [closeWithReset_state s, closeWithReset_state, closedState_idem]
  · rw [closeNow_state s, closeNow_state, closedState_idem]

def c5Bad : ClientState :=
  { c5State with transportGood := false }

/-- Witness for the amended C5 at concrete inputs: a good transport (Engine
app-close only), a closed transport (full error path), and idempotence. -/
theorem close_functions_behavior_witness :
    close c5State = (c5State, [Effect.engineAppClose]) ∧
    close c5Bad = (closedState c5Bad,
      sinkErrEffects c5Bad.callback AseType.END_OF_FILE ++
      pendingFailEffects c5Bad.earlyDataState AseType.END_OF_FILE ++
      [Effect.engineMoveToErrorState AseType.END_OF_FILE,
       Effect.deliverError AseType.END_OF_FILE false,
       Effect.transportClose]) ∧
    (closeNow (closeNow c5State).1).1 = (closeNow c5State).1 := by
  exact ⟨(close_functions_behavior c5State).1 rfl,
    (close_functions_behavior c5Bad).2.1 rfl,
    (close_functions_behavior c5State).2.2.2.2.2.2⟩

/-! ## C9: misuse of connect -/

def c9Outstanding : ClientState :=
  ⟨some (FizzCallback.handshake 0), true, false, false, none, none, none,
   EarlyDataRejectionPolicy.FatalConnectionError, true⟩

def c9Fresh : ClientState :=
  ⟨none, true, false, false, none, none, none,
   EarlyDataRejectionPolicy.FatalConnectionError, true⟩

/-- C9 counterexample: with a connect already outstanding (or no observer
supplied), both connect shapes abort on a failed `CHECK` assertion; no
InvalidUsage error is delivered through any error channel, contrary to the
claim. -/
theorem connect_invalid_usage_counterexample :
    connect c9Outstanding (some (FizzCallback.handshake 1)) none true
      = ConnectResult.fatalAssert ∧
    ¬ failsWithInvalidUsage
        (connect c9Outstanding (some (FizzCallback.handshake 1)) none true) ∧
    connect c9Fresh none none true = ConnectResult.fatalAssert ∧
    ¬ failsWithInvalidUsage (connect c9Fresh none none true) ∧
    connectSocket c9Outstanding (some (FizzCallback.connectCb 1)) none true true
      = ConnectResult.fatalAssert ∧
    ¬ failsWithInvalidUsage
        (connectSocket c9Outstanding (some (FizzCallback.connectCb 1)) none
          true true) ∧
    connectSocket c9Fresh none none true true = ConnectResult.fatalAssert ∧
    ¬ failsWithInvalidUsage (connectSocket c9Fresh none none true true) := by
  refine ⟨rfl, ?_, rfl, ?_, rfl, ?_, rfl, ?_⟩ <;>
    · rintro ⟨s, effs, heq, -⟩
      simp [connect, connectSocket, c9Outstanding, c9Fresh] at heq

/-- C9 amended: both connect shapes terminate the process with a fatal
assertion failure (a glog `CHECK`) when no observer is supplied or when a
connect is already outstanding; no error is delivered. -/
theorem connect_check_aborts (s : ClientState) (cb : Option FizzCallback)
    (psk : Option Nat) (tz usp : Bool)
    (h : cb = none ∨ s.callback.isSome = true) :
    connect s cb psk tz = ConnectResult.fatalAssert ∧
    connectSocket s cb psk tz usp = ConnectResult.fatalAssert := by
  cases h with
  | inl h =>
    subst h
    exact ⟨rfl, rfl⟩
  | inr h =>
    cases hc : cb with
    | none => exact ⟨rfl, rfl⟩
    | some c =>
      unfold connect connectSocket
      simp [h]

/-- Witness for the amended C9 at concrete inputs. -/
theorem connect_check_aborts_witness :
    (connect c9Outstanding (some (FizzCallback.handshake 1)) none true
        = ConnectResult.fatalAssert ∧
      connectSocket c9Outstanding (some (FizzCallback.handshake 1)) none true
          true = ConnectResult.fatalAssert) ∧
    (connect c9Fresh none none true = ConnectResult.fatalAssert ∧
      connectSocket c9Fresh none none true true = ConnectResult.fatalAssert) := by
  exact ⟨connect_check_aborts c9Outstanding (some (FizzCallback.handshake 1))
      none true true (Or.inr rfl),
    connect_check_aborts c9Fresh none none true true (Or.inl rfl)⟩

end FizzClient
